import Mathlib

/-!
Verification of the Gravitas Python SDK (`gravsdk/__init__.py`) against its
specification.  The module is a thin session client over an HTTP JSON API.
We embed the parsed-JSON data model, Python truthiness, and the session
client methods (`_login_sanity_check`, `login`, `logout`,
`login_session_check`, `clients`, and the constructor's scheme check) as
pure Lean functions.  The transport (`gravcrud.HTTPCRUD`) is not part of
the embedded code: each method is modelled as a function of the
`(success, body)` pair the transport hands back (for `clients`, of the
transport function itself, since the method also builds the path and the
query parameters it sends).
-/

namespace Gravsdk

/-- Parsed JSON values, as Python hands them to the SDK after
`json` decoding: `None`, booleans, integers, strings, lists and dicts.
Dicts are association lists in insertion order. -/
inductive JVal : Type where
  | null : JVal
  | bool : Bool → JVal
  | num : Int → JVal
  | str : String → JVal
  | arr : List JVal → JVal
  | obj : List (String × JVal) → JVal

/-- A decoded JSON response body, typed `Dict[str, str]` in the source
(really a dict of arbitrary JSON values): an association list. -/
abbrev Assoc : Type := List (String × JVal)

/-- Dict lookup: first binding of the key, if any (Python dict keys are
unique; on duplicate keys in the model the first binding wins). -/
def dictLookup (d : Assoc) (k : String) : Option JVal :=
  match d with
  | [] => none
  | (k', v) :: rest => if k' = k then some v else dictLookup rest k

/-- Python truthiness (`if not x`): `None`, `False`, `0`, the empty
string, the empty list and the empty dict are falsy. -/
def truthy : JVal → Bool
  | .null => false
  | .bool b => b
  | .num n => n != 0
  | .str s => s != ""
  | .arr xs => !xs.isEmpty
  | .obj kvs => !kvs.isEmpty

mutual
/-- Python `repr` of a decoded JSON value (used by `str` inside
containers). -/
def pyRepr : JVal → String
  | .null => "None"
  | .bool true => "True"
  | .bool false => "False"
  | .num n => toString n
  | .str s => "'" ++ s ++ "'"
  | .arr xs => "[" ++ String.intercalate ", " (pyReprList xs) ++ "]"
  | .obj kvs => "\x7b" ++ String.intercalate ", " (pyReprPairs kvs) ++ "\x7d"

/-- Python `repr` of each element of a list. -/
def pyReprList : List JVal → List String
  | [] => []
  | x :: xs => pyRepr x :: pyReprList xs

/-- Python `repr` of each `key: value` pair of a dict. -/
def pyReprPairs : List (String × JVal) → List String
  | [] => []
  | (k, v) :: xs => ("'" ++ k ++ "': " ++ pyRepr v) :: pyReprPairs xs
end

/-- Python `str` of a decoded JSON value, as f-string interpolation and
the exception constructors apply it. -/
def pyStr : JVal → String
  | .str s => s
  | v => pyRepr v

/-- The exceptions a call can raise: the three SDK exception classes
(each carrying the `responsetext` passed to its constructor) and the
Python built-in errors the source can hit (`KeyError` from a missing
dict key, `IndexError` from `rows[0]` on an empty list, `TypeError`
from subscripting or measuring a value of the wrong shape). -/
inductive Exc : Type where
  | gravError : String → Exc
  | gravAuthError : String → Exc
  | gravGeneralError : String → Exc
  | keyError : String → Exc
  | indexError : Exc
  | typeError : Exc
deriving Repr, DecidableEq

/-- Message format of `GravError`: `f"API error: ..."`. -/
def gravErrorMessage (responsetext : String) : String :=
  "API error: `" ++ responsetext ++ "`"

/-- Message format of `GravAuthError`: `f"Login error: ..."`. -/
def gravAuthErrorMessage (responsetext : String) : String :=
  "Login error: `" ++ responsetext ++ "`"

/-- Message format of `GravGeneralError`: `f"General error: ..."`. -/
def gravGeneralErrorMessage (responsetext : String) : String :=
  "General error: `" ++ responsetext ++ "`"

/-- Python `seq[i]` on a decoded JSON value: list indexing raises
`IndexError` past the end; subscripting a non-sequence raises a lookup
or type error, modelled as `typeError` (no claim exercises it). -/
def pyIndex (v : JVal) (i : Nat) : Except Exc JVal :=
  match v with
  | .arr xs =>
    match xs.get? i with
    | some x => .ok x
    | none => .error .indexError
  | _ => .error .typeError

/-- Python `len` on a decoded JSON value. -/
def pyLen (v : JVal) : Except Exc Nat :=
  match v with
  | .arr xs => .ok xs.length
  | .str s => .ok s.length
  | .obj kvs => .ok kvs.length
  | _ => .error .typeError

/-- Python `d.get(k, default)` on a decoded JSON dict. -/
def pyDictGet (v : JVal) (k : String) (default : JVal) : Except Exc JVal :=
  match v with
  | .obj kvs => .ok ((dictLookup kvs k).getD default)
  | _ => .error .typeError

/-- Python `d[k]` on a decoded JSON dict: `KeyError` when absent. -/
def pyDictItem (v : JVal) (k : String) : Except Exc JVal :=
  match v with
  | .obj kvs =>
    match dictLookup kvs k with
    | some x => .ok x
    | none => .error (.keyError k)
  | _ => .error .typeError

-- The verb constants of `sdkv1`.

/-- Verb constant `sdkv1.READ = 1`. -/
def READ : Int := 1

/-- Verb constant `sdkv1.CREATE = 2`. -/
def CREATE : Int := 2

/-- Verb constant `sdkv1.UPDATE = 3`. -/
def UPDATE : Int := 3

/-- Verb constant `sdkv1.DELETE = 4`. -/
def DELETE : Int := 4

/-- The shared helper `sdkv1._login_sanity_check(result, responsedata)`: raises
`GravAuthError('Invalid API data received')` when the transport flag is
false; raises `GravAuthError('api response missing `success` key')` when
`responsedata` has no `success` key; when `success` is falsy raises
`GravAuthError(responsedata['error'])` (so a `KeyError` when `error` is
also absent); otherwise returns `True`. -/
def login_sanity_check (result : Bool) (responsedata : Assoc) :
    Except Exc Bool :=
  if !result then
    .error (.gravAuthError "Invalid API data received")
  else
    match dictLookup responsedata "success" with
    | none => .error (.gravAuthError "api response missing `success` key")
    | some success =>
      if !truthy success then
        match dictLookup responsedata "error" with
        | none => .error (.keyError "error")
        | some e => .error (.gravAuthError (pyStr e))
      else
        .ok true

/-- Method `sdkv1.login_session_check()`, as a function of the
`(result, responsedata)` pair returned by `self.CRUD.read('login', {})`:
after the sanity check, returns `(False, {})` when `responsedata['rows']`
is empty and `(True, responsedata['rows'][0])` otherwise. -/
def login_session_check (result : Bool) (responsedata : Assoc) :
    Except Exc (Bool × JVal) := do
  let sc ← login_sanity_check result responsedata
  if !sc then
    return (false, .obj [])
  else
    let rowsv ← pyDictItem (.obj responsedata) "rows"
    let n ← pyLen rowsv
    if n = 0 then
      return (false, .obj [])
    else
      let r ← pyIndex rowsv 0
      return (true, r)

/-- Method `sdkv1.login(username, password)`, as a function of the
`(result, responsedata)` pair returned by
`self.CRUD.create('login', payload)` and of `self.hostparts.netloc`:
after the sanity check, raises `GravAuthError('No user data received')`
when `'rows' not in responsedata`; takes `rows = responsedata['rows'][0]`
(an `IndexError` when the list is empty); raises the password-change
`GravAuthError` when `rows.get('FORCE_PWD_CHANGE', False)` is truthy;
raises the password-expired `GravAuthError` when `rows['expired_pwd']`
is truthy; otherwise returns `True`. -/
def login (result : Bool) (responsedata : Assoc) (netloc : String) :
    Except Exc Bool := do
  let sc ← login_sanity_check result responsedata
  if !sc then
    return false
  else
    match dictLookup responsedata "rows" with
    | none => throw (.gravAuthError "No user data received")
    | some rowsv =>
      let rows ← pyIndex rowsv 0
      let force_pwd_change ← pyDictGet rows "FORCE_PWD_CHANGE" (.bool false)
      if truthy force_pwd_change then
        throw (.gravAuthError ("Password must be changed. Please log in with a browser to https://" ++ netloc ++ " to change your password"))
      else
        let expired ← pyDictItem rows "expired_pwd"
        if truthy expired then
          throw (.gravAuthError ("Password has expired. Please log in with a browser to https://" ++ netloc ++ " to change your password"))
        else
          return true

/-- Method `sdkv1.logout()`, as a function of the `(result, responsedata)` pair
returned by `self.CRUD.delete('login', {})`: the sanity check, then
`True`. -/
def logout (result : Bool) (responsedata : Assoc) : Except Exc Bool := do
  let sc ← login_sanity_check result responsedata
  if !sc then
    return false
  else
    return true

/-- The query-parameter dict `sdkv1.clients` builds for a read:
`fields` comma-joined when non-empty, `limit` when positive, `order`
comma-joined when non-empty, in insertion order. -/
def clients_read_params (fields : List String) (limit : Int)
    (order : List String) : Assoc :=
  let params : Assoc := []
  let params := if fields.length > 0 then
    params ++ [("fields", .str (String.intercalate "," fields))] else params
  let params := if limit > 0 then
    params ++ [("limit", .num limit)] else params
  let params := if order.length > 0 then
    params ++ [("order", .str (String.intercalate "," order))] else params
  params

/-- The path `sdkv1.clients` reads: `"clients"`, with `/<client_id>`
appended when `client_id > 0`. -/
def clients_read_path (client_id : Int) : String :=
  if client_id > 0 then "clients/" ++ toString client_id else "clients"

/-- Method `sdkv1.clients(method, client_id, fields, order, limit)`, with the
transport passed in as the function `crudRead` standing for
`self.CRUD.read`: rejects unknown verbs and the unimplemented
`CREATE`/`UPDATE`/`DELETE` with a `GravGeneralError`; for `READ` builds
the parameters and path, calls the transport, raises a
`GravGeneralError` carrying `responsedata['error']` when the transport
flag is false, raises `GravGeneralError(f"Client ID ... not found!")`
when `responsedata['rows']` is empty, and otherwise returns
`(True, responsedata['rows'])`. -/
def clients (crudRead : String → Assoc → Bool × Assoc) (method : Int)
    (client_id : Int) (fields : List String) (order : List String)
    (limit : Int) : Except Exc (Bool × JVal) := do
  if method ∉ [CREATE, READ, UPDATE, DELETE] then
    throw (.gravGeneralError ("Invalid method specified: " ++ toString method))
  else if method ∈ [CREATE, UPDATE, DELETE] then
    throw (.gravGeneralError "Method not implemented yet!")
  else
    let params := clients_read_params fields limit order
    let pathuri := clients_read_path client_id
    let (success, responsedata) := crudRead pathuri params
    if !success then
      let e ← pyDictItem (.obj responsedata) "error"
      throw (.gravGeneralError ("Error received from API: " ++ pyStr e))
    else
      let rowsv ← pyDictItem (.obj responsedata) "rows"
      let n ← pyLen rowsv
      if n = 0 then
        throw (.gravGeneralError ("Client ID `" ++ toString client_id ++ "` not found!"))
      else
        return (true, rowsv)

/-- Whether a character may appear in a URL scheme after the first
character, per the `urllib.parse` rules: letters, digits, `+`, `-`, `.` -/
def schemeChar (c : Char) : Bool :=
  c.isAlpha || c.isDigit || c = '+' || c = '-' || c = '.'

/-- Models the scheme extraction of Python's `urllib.parse.urlparse`
(standard library, outside this repository): the characters before the
first `:`, when one occurs. -/
def schemeSplit : List Char → Option (List Char)
  | [] => none
  | c :: cs => if c = ':' then some [] else (schemeSplit cs).map (c :: ·)

/-- Extracted scheme, continued: the text before the first `:` is the
scheme, lowercased, when it starts with a letter and uses only scheme
characters; otherwise the scheme is empty. -/
def urlparse_scheme (hoststring : String) : String :=
  match schemeSplit hoststring.toList with
  | none => ""
  | some [] => ""
  | some (c :: cs) =>
    if c.isAlpha && cs.all schemeChar then
      String.mk ((c :: cs).map Char.toLower)
    else ""

/-- Models the remainder `urllib.parse.urlparse` inspects after the
scheme: the characters after the first `:` when a valid scheme is
present, the whole string otherwise. -/
def afterColon : List Char → List Char
  | [] => []
  | c :: cs => if c = ':' then cs else afterColon cs

/-- Models the netloc component of `urllib.parse.urlparse`: when the
remainder starts with `//`, the characters up to the next `/`, `?` or
`#`; otherwise empty. -/
def urlparse_netloc (rest : List Char) : List Char :=
  match rest with
  | '/' :: '/' :: r => r.takeWhile (fun c => c != '/' && c != '?' && c != '#')
  | _ => []

/-- Models the validation `urllib.parse.urlparse` applies to the netloc:
a `[` without a `]`, or a `]` without a `[`, raises
`ValueError('Invalid IPv6 URL')`. -/
def invalid_ipv6_url (netloc : List Char) : Bool :=
  (netloc.contains '[' && !netloc.contains ']') ||
  (netloc.contains ']' && !netloc.contains '[')

/-- Models `urllib.parse.urlparse(hoststring)` as the constructor
consumes it: either the exception's message (the `ValueError` from an
unmatched bracket in the netloc) or the parsed scheme. -/
def urlparse_result (hoststring : String) : Except String String :=
  let rest := if urlparse_scheme hoststring = "" then hoststring.toList
              else afterColon hoststring.toList
  if invalid_ipv6_url (urlparse_netloc rest) then
    .error "Invalid IPv6 URL"
  else
    .ok (urlparse_scheme hoststring)

/-- The transport object `sdkv1.__init__` constructs: the base URL and
the TLS-verification flag handed to `gravcrud.HTTPCRUD`. -/
structure HTTPCRUD : Type where
  url : String
  ssl_verify_enable : Bool
deriving Repr, DecidableEq

/-- The state `sdkv1.__init__` leaves behind on success. -/
structure Sdkv1 : Type where
  protocol : String
  ssl_verify_enable : Bool
  CRUD : HTTPCRUD
deriving Repr, DecidableEq

/-- Constructor `sdkv1.__init__(hoststring, ssl_verify_enable)`: parses
the host string inside try/except, re-raising a `urlparse` failure as
`GravError(f'invalid url specified: ...')`; keeps the parsed scheme as
`self.protocol` and constructs the `HTTPCRUD` transport only when the
scheme is `https`; any other scheme raises
`GravError('invalid protocol specified, ...')`.  On either error path
no transport is constructed and no network call is made (nothing in the
constructor performs I/O). -/
def sdkv1_init (hoststring : String) (ssl_verify_enable : Bool) :
    Except Exc Sdkv1 :=
  match urlparse_result hoststring with
  | .error e => .error (.gravError ("invalid url specified: `" ++ e ++ "`"))
  | .ok protocol =>
    if protocol = "https" then
      .ok { protocol := protocol
            ssl_verify_enable := ssl_verify_enable
            CRUD := { url := hoststring, ssl_verify_enable := ssl_verify_enable } }
    else
      .error (.gravError "invalid protocol specified, must be `https` or `wss`")


/-! ### Helper lemmas -/

theorem exceptBind_ok {α β : Type} (a : α) (f : α → Except Exc β) :
    (Except.ok a : Except Exc α) >>= f = f a := rfl

theorem exceptBind_error {α β : Type} (e : Exc) (f : α → Except Exc β) :
    (Except.error e : Except Exc α) >>= f = Except.error e := rfl

theorem exceptThrow {α : Type} (e : Exc) :
    (throw e : Except Exc α) = Except.error e := rfl

theorem exceptPure {α : Type} (a : α) :
    (pure a : Except Exc α) = Except.ok a := rfl

theorem sanity_check_false (body : Assoc) :
    login_sanity_check false body =
      Except.error (Exc.gravAuthError "Invalid API data received") := rfl

theorem sanity_check_missing (body : Assoc)
    (h : dictLookup body "success" = none) :
    login_sanity_check true body =
      Except.error (Exc.gravAuthError "api response missing `success` key") := by
  simp [login_sanity_check, h]

theorem sanity_check_ok (body : Assoc) (s : JVal)
    (hs : dictLookup body "success" = some s) (ht : truthy s = true) :
    login_sanity_check true body = Except.ok true := by
  simp [login_sanity_check, hs, ht]

theorem sanity_check_err_msg (body : Assoc) (s e : JVal)
    (hs : dictLookup body "success" = some s) (ht : truthy s = false)
    (he : dictLookup body "error" = some e) :
    login_sanity_check true body =
      Except.error (Exc.gravAuthError (pyStr e)) := by
  simp [login_sanity_check, hs, ht, he]

theorem sanity_check_err_missing (body : Assoc) (s : JVal)
    (hs : dictLookup body "success" = some s) (ht : truthy s = false)
    (he : dictLookup body "error" = none) :
    login_sanity_check true body = Except.error (Exc.keyError "error") := by
  simp [login_sanity_check, hs, ht, he]

/-! ### C2 -/

/-- C2 (counterexample): on the pair `(true, body)` with
`body = `JSON dict with `success: false` and no `error` key, the sanity
check raises a `KeyError`, not an authentication error, so the claim's
"success is false implies an authentication error carrying body's error
value" fails at this input. -/
theorem C2_counterexample :
    login_sanity_check true [("success", JVal.bool false)] =
        Except.error (Exc.keyError "error") ∧
    ¬ ∃ m, login_sanity_check true [("success", JVal.bool false)] =
        Except.error (Exc.gravAuthError m) := by
  refine ⟨rfl, ?_⟩
  rintro ⟨m, h⟩
  rw [show login_sanity_check true [("success", JVal.bool false)] =
    Except.error (Exc.keyError "error") from rfl] at h
  simp at h

/-- C2 (amended): the sanity check raises an authentication error exactly
when the transport flag is false, the `success` key is missing, or the
`success` value is falsy with an `error` key present (the message then
being the `error` value); when `success` is falsy and `error` is absent
it raises a `KeyError` instead; in all remaining cases it returns true
without raising. -/
theorem C2_theorem (result : Bool) (body : Assoc) :
    ((∃ m, login_sanity_check result body =
        Except.error (Exc.gravAuthError m)) ↔
      result = false ∨ dictLookup body "success" = none ∨
        ∃ s, dictLookup body "success" = some s ∧ truthy s = false ∧
          dictLookup body "error" ≠ none)
    ∧ (login_sanity_check result body = Except.ok true ↔
        result = true ∧
          ∃ s, dictLookup body "success" = some s ∧ truthy s = true)
    ∧ (∀ s e, result = true → dictLookup body "success" = some s →
        truthy s = false → dictLookup body "error" = some e →
        login_sanity_check result body =
          Except.error (Exc.gravAuthError (pyStr e)))
    ∧ (∀ s, result = true → dictLookup body "success" = some s →
        truthy s = false → dictLookup body "error" = none →
        login_sanity_check result body =
          Except.error (Exc.keyError "error")) := by
  cases result with
  | false =>
    refine ⟨?_, ?_, ?_, ?_⟩
    · simp [sanity_check_false]
    · simp [sanity_check_false]
    · intro s e h; exact absurd h (by simp)
    · intro s h; exact absurd h (by simp)
  | true =>
    refine ⟨?_, ?_, ?_, ?_⟩
    · rcases hs : dictLookup body "success" with _ | s
      · simp [sanity_check_missing body hs]
      · rcases ht : truthy s with _ | _
        · rcases he : dictLookup body "error" with _ | e
          · simp [sanity_check_err_missing body s hs ht he, hs, ht, he]
          · simp [sanity_check_err_msg body s e hs ht he, hs, ht, he]
        · simp [sanity_check_ok body s hs ht, hs, ht]
    · rcases hs : dictLookup body "success" with _ | s
      · simp [sanity_check_missing body hs]
      · rcases ht : truthy s with _ | _
        · rcases he : dictLookup body "error" with _ | e
          · simp [sanity_check_err_missing body s hs ht he, hs, ht]
          · simp [sanity_check_err_msg body s e hs ht he, hs, ht]
        · simp [sanity_check_ok body s hs ht, hs, ht]
    · intro s e _ hs ht he
      exact sanity_check_err_msg body s e hs ht he
    · intro s _ hs ht he
      exact sanity_check_err_missing body s hs ht he

/-- C2 (witness): on the pair `(true, body)` with `success: false` and
`error: "bad creds"`, the sanity check raises the authentication error
carrying `"bad creds"`. -/
theorem C2_witness :
    login_sanity_check true
        [("success", JVal.bool false), ("error", JVal.str "bad creds")] =
      Except.error (Exc.gravAuthError "bad creds") :=
  (C2_theorem true
      [("success", JVal.bool false), ("error", JVal.str "bad creds")]).2.2.1
    (JVal.bool false) (JVal.str "bad creds") rfl rfl rfl rfl

theorem login_of_sanity_error (result : Bool) (body : Assoc)
    (netloc : String) (e : Exc)
    (h : login_sanity_check result body = Except.error e) :
    login result body netloc = Except.error e := by
  simp [login, h, exceptBind_error]

theorem logout_of_sanity_error (result : Bool) (body : Assoc) (e : Exc)
    (h : login_sanity_check result body = Except.error e) :
    logout result body = Except.error e := by
  simp [logout, h, exceptBind_error]

theorem session_check_of_sanity_error (result : Bool) (body : Assoc)
    (e : Exc) (h : login_sanity_check result body = Except.error e) :
    login_session_check result body = Except.error e := by
  simp [login_session_check, h, exceptBind_error]

/-! ### C1 -/

/-- C1 (counterexample): `clients` never consults the body's `success`
key.  Against the transport answer `(true, body)` with
`body = ` a dict holding only `rows: [dict()]` — no `success` key — a
`READ` of client 42 returns a successful result built from that
malformed envelope instead of raising. -/
theorem C1_counterexample :
    dictLookup [("rows", JVal.arr [JVal.obj []])] "success" = none ∧
    clients (fun _ _ => (true, [("rows", JVal.arr [JVal.obj []])]))
        READ 42 [] [] 100 =
      Except.ok (true, JVal.arr [JVal.obj []]) :=
  ⟨rfl, rfl⟩

/-- C1 (amended): for every response body lacking a `success` key, the
three login-path methods (`login`, `logout`, `login_session_check`)
raise an authentication error and never return a result, whatever the
transport flag; `clients`, however, does not look at the `success` key:
when the transport flag is false it raises a general error carrying the
body's `error` value (a raw `KeyError` when `error` is also absent),
and when the transport flag is true and the body's `rows` is a
non-empty list, it returns the successful pair `(true, rows)` even
though the envelope is malformed. -/
theorem C1_theorem :
    (∀ (result : Bool) (body : Assoc) (netloc : String),
        dictLookup body "success" = none →
          (∃ m, login result body netloc =
              Except.error (Exc.gravAuthError m)) ∧
          (∃ m, logout result body =
              Except.error (Exc.gravAuthError m)) ∧
          (∃ m, login_session_check result body =
              Except.error (Exc.gravAuthError m)))
    ∧ (∀ (body : Assoc) (cid limit : Int) (fields order : List String),
        dictLookup body "success" = none →
        clients (fun _ _ => (false, body)) READ cid fields order limit =
          match dictLookup body "error" with
          | some v => Except.error
              (Exc.gravGeneralError ("Error received from API: " ++ pyStr v))
          | none => Except.error (Exc.keyError "error"))
    ∧ (∀ (body : Assoc) (cid limit : Int) (fields order : List String)
          (r : JVal) (rs : List JVal),
        dictLookup body "success" = none →
        dictLookup body "rows" = some (JVal.arr (r :: rs)) →
        clients (fun _ _ => (true, body)) READ cid fields order limit =
          Except.ok (true, JVal.arr (r :: rs))) := by
  refine ⟨?_, ?_, ?_⟩
  · intro result body netloc h
    have hm : ∃ m0, login_sanity_check result body =
        Except.error (Exc.gravAuthError m0) := by
      cases result
      · exact ⟨_, sanity_check_false body⟩
      · exact ⟨_, sanity_check_missing body h⟩
    obtain ⟨m0, hm⟩ := hm
    exact ⟨⟨m0, login_of_sanity_error result body netloc _ hm⟩,
      ⟨m0, logout_of_sanity_error result body _ hm⟩,
      ⟨m0, session_check_of_sanity_error result body _ hm⟩⟩
  · intro body cid limit fields order _
    rcases he : dictLookup body "error" with _ | v <;>
      simp [clients, READ, CREATE, UPDATE, DELETE, exceptBind_ok,
        exceptBind_error, exceptThrow, pyDictItem, he]
  · intro body cid limit fields order r rs _ hrows
    simp [clients, READ, CREATE, UPDATE, DELETE, exceptBind_ok,
      exceptThrow, exceptPure, pyDictItem, hrows, pyLen]

/-- C1 (witness): a body holding only `rows: []` makes `login` raise an
authentication error; a body holding only `error: "boom"` makes a
`READ` of client 3 with a false transport flag raise the general error
carrying `boom`; and a body holding only `rows: [dict()]` makes a
`READ` of client 7 with a true transport flag succeed. -/
theorem C1_witness :
    (∃ m, login true [("rows", JVal.arr [])] "host" =
        Except.error (Exc.gravAuthError m)) ∧
    clients (fun _ _ => (false, [("error", JVal.str "boom")]))
        READ 3 [] [] 100 =
      Except.error (Exc.gravGeneralError "Error received from API: boom") ∧
    clients (fun _ _ => (true, [("rows", JVal.arr [JVal.obj []])]))
        READ 7 [] [] 100 =
      Except.ok (true, JVal.arr [JVal.obj []]) :=
  ⟨(C1_theorem.1 true [("rows", JVal.arr [])] "host" rfl).1,
   C1_theorem.2.1 [("error", JVal.str "boom")] 3 100 [] [] rfl,
   C1_theorem.2.2 [("rows", JVal.arr [JVal.obj []])] 7 100 [] []
     (JVal.obj []) [] rfl rfl⟩

/-! ### C3 -/

/-- C3: when the envelope passes the sanity check and the first user
record has `FORCE_PWD_CHANGE` set to true, `login` raises the
forced-password-change authentication error.  The record is otherwise
arbitrary, so the outcome is this error whatever `expired_pwd` holds —
true, false, or absent — i.e. the check precedes any inspection of
`expired_pwd`. -/
theorem C3_theorem (body : Assoc) (netloc : String) (s : JVal)
    (rec : List (String × JVal)) (rest : List JVal)
    (hs : dictLookup body "success" = some s) (ht : truthy s = true)
    (hr : dictLookup body "rows" = some (JVal.arr (JVal.obj rec :: rest)))
    (hf : dictLookup rec "FORCE_PWD_CHANGE" = some (JVal.bool true)) :
    login true body netloc =
      Except.error (Exc.gravAuthError
        ("Password must be changed. Please log in with a browser to https://"
          ++ netloc ++ " to change your password")) := by
  simp [login, sanity_check_ok body s hs ht, exceptBind_ok, hr, pyIndex,
    pyDictGet, hf, truthy, exceptThrow]

/-- C3 (witness): a passing envelope whose first record has both
`FORCE_PWD_CHANGE: true` and `expired_pwd: true` yields the
forced-password-change error, not the expired-password one. -/
theorem C3_witness :
    login true
        [("success", JVal.bool true),
         ("rows", JVal.arr [JVal.obj
           [("FORCE_PWD_CHANGE", JVal.bool true),
            ("expired_pwd", JVal.bool true)]])]
        "10.10.10.10:4443" =
      Except.error (Exc.gravAuthError
        ("Password must be changed. Please log in with a browser to https://"
          ++ "10.10.10.10:4443" ++ " to change your password")) :=
  C3_theorem
    [("success", JVal.bool true),
     ("rows", JVal.arr [JVal.obj
       [("FORCE_PWD_CHANGE", JVal.bool true),
        ("expired_pwd", JVal.bool true)]])]
    "10.10.10.10:4443" (JVal.bool true)
    [("FORCE_PWD_CHANGE", JVal.bool true), ("expired_pwd", JVal.bool true)]
    [] rfl rfl rfl rfl

/-! ### C4 -/

/-- C4: when the envelope passes the sanity check with a truthy outer
`success` flag and the first user record has `expired_pwd: true` with
`FORCE_PWD_CHANGE` not set, `login` raises the expired-password
authentication error and does not return true. -/
theorem C4_theorem (body : Assoc) (netloc : String) (s : JVal)
    (rec : List (String × JVal)) (rest : List JVal)
    (hs : dictLookup body "success" = some s) (ht : truthy s = true)
    (hr : dictLookup body "rows" = some (JVal.arr (JVal.obj rec :: rest)))
    (hf : dictLookup rec "FORCE_PWD_CHANGE" = none)
    (he : dictLookup rec "expired_pwd" = some (JVal.bool true)) :
    login true body netloc =
      Except.error (Exc.gravAuthError
        ("Password has expired. Please log in with a browser to https://"
          ++ netloc ++ " to change your password")) := by
  simp [login, sanity_check_ok body s hs ht, exceptBind_ok, hr, pyIndex,
    pyDictGet, pyDictItem, hf, he, truthy, exceptThrow]

/-- C4 (witness): an envelope with outer `success: true` whose record
has only `expired_pwd: true` yields the expired-password error. -/
theorem C4_witness :
    login true
        [("success", JVal.bool true),
         ("rows", JVal.arr [JVal.obj [("expired_pwd", JVal.bool true)]])]
        "example.net" =
      Except.error (Exc.gravAuthError
        ("Password has expired. Please log in with a browser to https://"
          ++ "example.net" ++ " to change your password")) :=
  C4_theorem
    [("success", JVal.bool true),
     ("rows", JVal.arr [JVal.obj [("expired_pwd", JVal.bool true)]])]
    "example.net" (JVal.bool true)
    [("expired_pwd", JVal.bool true)] [] rfl rfl rfl rfl rfl

/-! ### C5 -/

/-- C5: a `READ` of client 42 against a transport-successful envelope
with outer `success: true` raises, when `rows` is empty, the general
error `Client ID 42 not found!` — whose message contains the client
ID 42 — and returns `(true, [row])` when `rows` holds exactly one
row. -/
theorem C5_theorem (body₀ body₁ : Assoc) (row : JVal)
    (fields order : List String) (limit : Int)
    (h0s : dictLookup body₀ "success" = some (JVal.bool true))
    (h0r : dictLookup body₀ "rows" = some (JVal.arr []))
    (h1s : dictLookup body₁ "success" = some (JVal.bool true))
    (h1r : dictLookup body₁ "rows" = some (JVal.arr [row])) :
    (clients (fun _ _ => (true, body₀)) READ 42 fields order limit =
        Except.error (Exc.gravGeneralError "Client ID `42` not found!") ∧
      ∃ a b, "Client ID `42` not found!" = a ++ "42" ++ b) ∧
    clients (fun _ _ => (true, body₁)) READ 42 fields order limit =
      Except.ok (true, JVal.arr [row]) := by
  refine ⟨⟨?_, "Client ID `", "` not found!", rfl⟩, ?_⟩
  · simp [clients, READ, CREATE, UPDATE, DELETE, exceptBind_ok,
      exceptThrow, pyDictItem, h0r, pyLen]
    rfl
  · simp [clients, READ, CREATE, UPDATE, DELETE, exceptBind_ok,
      exceptThrow, exceptPure, pyDictItem, h1r, pyLen]

/-- C5 (witness): concrete envelopes — zero rows yields the not-found
general error for client 42; one row yields that row. -/
theorem C5_witness :
    clients (fun _ _ => (true,
        [("success", JVal.bool true), ("rows", JVal.arr [])]))
        READ 42 ["CLIENT_ID", "NAME"] ["NAME"] 100 =
      Except.error (Exc.gravGeneralError "Client ID `42` not found!") ∧
    clients (fun _ _ => (true,
        [("success", JVal.bool true),
         ("rows", JVal.arr [JVal.obj [("CLIENT_ID", JVal.num 42)]])]))
        READ 42 ["CLIENT_ID", "NAME"] ["NAME"] 100 =
      Except.ok (true, JVal.arr [JVal.obj [("CLIENT_ID", JVal.num 42)]]) := by
  have h := C5_theorem
    [("success", JVal.bool true), ("rows", JVal.arr [])]
    [("success", JVal.bool true),
     ("rows", JVal.arr [JVal.obj [("CLIENT_ID", JVal.num 42)]])]
    (JVal.obj [("CLIENT_ID", JVal.num 42)])
    ["CLIENT_ID", "NAME"] ["NAME"] 100 rfl rfl rfl rfl
  exact ⟨h.1.1, h.2⟩

/-! ### C6 -/

/-- C6: the query parameters a `READ` sends hold `fields` (comma-joined)
exactly when the list is non-empty, `limit` exactly when positive, and
`order` (comma-joined) exactly when non-empty; the path is
`clients/<id>` when `client_id` is positive and `clients` otherwise;
and `clients` consults the transport only at that path and those
parameters. -/
theorem C6_theorem (fields order : List String) (limit cid : Int) :
    dictLookup (clients_read_params fields limit order) "fields" =
      (if fields.length > 0
        then some (JVal.str (String.intercalate "," fields)) else none)
    ∧ dictLookup (clients_read_params fields limit order) "limit" =
      (if limit > 0 then some (JVal.num limit) else none)
    ∧ dictLookup (clients_read_params fields limit order) "order" =
      (if order.length > 0
        then some (JVal.str (String.intercalate "," order)) else none)
    ∧ clients_read_path cid =
      (if cid > 0 then "clients/" ++ toString cid else "clients")
    ∧ (∀ f g : String → Assoc → Bool × Assoc,
        f (clients_read_path cid) (clients_read_params fields limit order) =
          g (clients_read_path cid) (clients_read_params fields limit order) →
        clients f READ cid fields order limit =
          clients g READ cid fields order limit) := by
  refine ⟨?_, ?_, ?_, rfl, ?_⟩
  · unfold clients_read_params
    split_ifs <;> simp [dictLookup]
  · unfold clients_read_params
    split_ifs <;> simp [dictLookup]
  · unfold clients_read_params
    split_ifs <;> simp [dictLookup]
  · intro f g h
    simp only [clients]
    rw [h]

/-- C6 (witness): concrete parameter dict and path for a read of client
5 with two fields, one order key and limit 100; and two transports that
agree at that path and dict produce the same call result even though
they differ elsewhere. -/
theorem C6_witness :
    dictLookup (clients_read_params ["CLIENT_ID", "NAME"] 100 ["NAME"])
        "fields" = some (JVal.str "CLIENT_ID,NAME") ∧
    dictLookup (clients_read_params ["CLIENT_ID", "NAME"] 100 ["NAME"])
        "limit" = some (JVal.num 100) ∧
    dictLookup (clients_read_params ["CLIENT_ID", "NAME"] 100 ["NAME"])
        "order" = some (JVal.str "NAME") ∧
    clients_read_path 5 = "clients/5" ∧
    clients (fun _ _ => (true, [("rows", JVal.arr [JVal.obj []])]))
        READ 5 ["CLIENT_ID", "NAME"] ["NAME"] 100 =
      clients (fun p _ => if p = "zzz" then (false, [])
          else (true, [("rows", JVal.arr [JVal.obj []])]))
        READ 5 ["CLIENT_ID", "NAME"] ["NAME"] 100 := by
  have h := C6_theorem ["CLIENT_ID", "NAME"] ["NAME"] 100 5
  refine ⟨by simpa using h.1, by simpa using h.2.1, by simpa using h.2.2.1,
    by simpa using h.2.2.2.1, h.2.2.2.2 _ _ rfl⟩

/-! ### C7 -/

/-- C7: against any response passing the sanity check whose `rows` is a
list, `login_session_check` returns `(false, empty dict)` when the list
is empty and `(true, first row)` when it is non-empty. -/
theorem C7_theorem (body : Assoc) (s : JVal) (xs : List JVal)
    (hs : dictLookup body "success" = some s) (ht : truthy s = true)
    (hr : dictLookup body "rows" = some (JVal.arr xs)) :
    (xs = [] →
      login_session_check true body = Except.ok (false, JVal.obj [])) ∧
    (∀ r rest, xs = r :: rest →
      login_session_check true body = Except.ok (true, r)) := by
  constructor
  · rintro rfl
    simp [login_session_check, sanity_check_ok body s hs ht,
      exceptBind_ok, pyDictItem, hr, pyLen, exceptPure]
  · rintro r rest rfl
    simp [login_session_check, sanity_check_ok body s hs ht,
      exceptBind_ok, pyDictItem, hr, pyLen, pyIndex, exceptPure]

/-- C7 (witness): `rows: []` yields `(false, empty dict)`;
`rows: [dict(USER: "x")]` yields `(true, dict(USER: "x"))`. -/
theorem C7_witness :
    login_session_check true
        [("success", JVal.bool true), ("rows", JVal.arr [])] =
      Except.ok (false, JVal.obj []) ∧
    login_session_check true
        [("success", JVal.bool true),
         ("rows", JVal.arr [JVal.obj [("USER", JVal.str "x")]])] =
      Except.ok (true, JVal.obj [("USER", JVal.str "x")]) :=
  ⟨(C7_theorem [("success", JVal.bool true), ("rows", JVal.arr [])]
      (JVal.bool true) [] rfl rfl rfl).1 rfl,
   (C7_theorem [("success", JVal.bool true),
        ("rows", JVal.arr [JVal.obj [("USER", JVal.str "x")]])]
      (JVal.bool true) [JVal.obj [("USER", JVal.str "x")]]
      rfl rfl rfl).2 (JVal.obj [("USER", JVal.str "x")]) [] rfl⟩

/-! ### C8 -/

/-- C8: for every host string that does not parse to the scheme
`https`, construction fails with a general (configuration) `GravError`:
when `urlparse` raises, its `ValueError` is re-raised as the
invalid-url `GravError`; when it yields a scheme other than `https`,
the invalid-protocol `GravError` is raised.  Either way the error
result carries no `Sdkv1` state and hence no `HTTPCRUD` transport, and
`sdkv1_init` is a pure function of the host string, so no network call
can occur before the error. -/
theorem C8_theorem (hoststring : String) (ssl : Bool) :
    (∀ e, urlparse_result hoststring = Except.error e →
      sdkv1_init hoststring ssl =
        Except.error
          (Exc.gravError ("invalid url specified: `" ++ e ++ "`")))
    ∧ (∀ scheme, urlparse_result hoststring = Except.ok scheme →
        scheme ≠ "https" →
        sdkv1_init hoststring ssl =
          Except.error
            (Exc.gravError "invalid protocol specified, must be `https` or `wss`"))
    ∧ ((∀ scheme, urlparse_result hoststring = Except.ok scheme →
          scheme ≠ "https") →
        ∃ m, sdkv1_init hoststring ssl =
          Except.error (Exc.gravError m)) := by
  refine ⟨?_, ?_, ?_⟩
  · intro e he
    simp [sdkv1_init, he]
  · intro scheme hs hne
    simp [sdkv1_init, hs, hne]
  · intro h
    rcases hu : urlparse_result hoststring with e | scheme
    · exact ⟨"invalid url specified: `" ++ e ++ "`",
        by simp [sdkv1_init, hu]⟩
    · exact ⟨"invalid protocol specified, must be `https` or `wss`",
        by simp [sdkv1_init, hu, h scheme hu]⟩

/-- C8 (witness): constructing against `ftp://host` (scheme `ftp`)
fails with the invalid-protocol error, and constructing against
`ftp://[invalid` — where `urlparse` raises
`ValueError('Invalid IPv6 URL')` — fails with the invalid-url error. -/
theorem C8_witness :
    sdkv1_init "ftp://host" true =
      Except.error
        (Exc.gravError "invalid protocol specified, must be `https` or `wss`") ∧
    sdkv1_init "ftp://[invalid" true =
      Except.error
        (Exc.gravError "invalid url specified: `Invalid IPv6 URL`") :=
  ⟨( C8_theorem "ftp://host" true).2.1 "ftp" rfl (by decide),
   ( C8_theorem "ftp://[invalid" true).1 "Invalid IPv6 URL" rfl⟩

/-! ### C9 -/

/-- C9: a `READ` with `client_id = 0` against a transport-successful
envelope whose `rows` is empty still raises the general error
`Client ID 0 not found!` instead of returning `(true, [])`: the
empty-result error is not limited to positive `client_id` lookups. -/
theorem C9_theorem (body : Assoc) (fields order : List String)
    (limit : Int)
    (hr : dictLookup body "rows" = some (JVal.arr [])) :
    clients (fun _ _ => (true, body)) READ 0 fields order limit =
      Except.error (Exc.gravGeneralError "Client ID `0` not found!") := by
  simp [clients, READ, CREATE, UPDATE, DELETE, exceptBind_ok,
    exceptThrow, pyDictItem, hr, pyLen]
  rfl

/-- C9 (witness): the concrete empty-rows envelope with `client_id = 0`
raises the not-found error. -/
theorem C9_witness :
    clients (fun _ _ => (true,
        [("success", JVal.bool true), ("rows", JVal.arr [])]))
        READ 0 [] [] 100 =
      Except.error (Exc.gravGeneralError "Client ID `0` not found!") :=
  C9_theorem [("success", JVal.bool true), ("rows", JVal.arr [])]
    [] [] 100 rfl

/-! ### C10 -/

/-- C10: against an envelope passing the sanity check, `login` raises a
raw `IndexError` — not an authentication error — when the `rows` key is
present but maps to an empty list (from `responsedata['rows'][0]`),
while the `No user data received` authentication error arises exactly
in the case where the `rows` key is absent entirely. -/
theorem C10_theorem (body : Assoc) (s : JVal) (netloc : String)
    (hs : dictLookup body "success" = some s) (ht : truthy s = true) :
    (dictLookup body "rows" = some (JVal.arr []) →
      login true body netloc = Except.error Exc.indexError) ∧
    (dictLookup body "rows" = none →
      login true body netloc =
        Except.error (Exc.gravAuthError "No user data received")) := by
  constructor
  · intro hr
    simp [login, sanity_check_ok body s hs ht, exceptBind_ok, hr,
      pyIndex, exceptBind_error]
  · intro hr
    simp [login, sanity_check_ok body s hs ht, exceptBind_ok, hr,
      exceptThrow]

/-- C10 (witness): with `success: true` and `rows: []`, `login` raises
`IndexError`; with `success: true` and no `rows` key, it raises the
`No user data received` authentication error. -/
theorem C10_witness :
    login true [("success", JVal.bool true), ("rows", JVal.arr [])]
        "host" = Except.error Exc.indexError ∧
    login true [("success", JVal.bool true)] "host" =
      Except.error (Exc.gravAuthError "No user data received") :=
  ⟨(C10_theorem [("success", JVal.bool true), ("rows", JVal.arr [])]
      (JVal.bool true) "host" rfl rfl).1 rfl,
   (C10_theorem [("success", JVal.bool true)]
      (JVal.bool true) "host" rfl rfl).2 rfl⟩

end Gravsdk
